import Mathlib

/-!
Verification of the request-execution core of the Ai-SDK chat UI backend
(`src-tauri/src/openai_proxy.rs` and `src-tauri/src/secure_config.rs`).

The Rust functions are shallowly embedded as pure Lean functions.  External
effects (the `reqwest` transport, the filesystem, `serde_json`) are
parameterised as oracle records whose fields give the outcome of each
external call; the control flow, string formatting, header assembly, URL
construction, base64 decoding and size checks are translated faithfully from
the source.  Machine strings are Lean `String`s; the byte length of a Rust
`String` (as used by `body.len()`) is modelled by carrying the response body
as its list of bytes.  The random correlation identifier produced by
`Uuid::new_v4()` is a parameter `rid`.
-/

namespace ChatUI

/-! ### String utilities -/

/-- Substring test on character lists, mirroring Rust `str::contains` for a
string pattern (case-sensitive, contiguous). -/
def hasSub (pat : List Char) : List Char → Bool
  | [] => pat.isEmpty
  | c :: t => pat.isPrefixOf (c :: t) || hasSub pat t

/-- Rust substring containment, `hay.contains(pat)`. -/
def containsStr (hay pat : String) : Bool :=
  hasSub pat.data hay.data

/-- The `format!("[Request {}] ...", request_id, ...)` prefix every tagged
diagnostic of `openai_proxy.rs` starts with. -/
def tagged (rid s : String) : String :=
  "[Request " ++ rid ++ "] " ++ s

/-- Rust `s.trim_end_matches('/')`: repeatedly removes a trailing `'/'`
until none remains. -/
def trimEndMatchesSlash (s : String) : String :=
  String.mk ((s.data.reverse.dropWhile (fun c => c == '/')).reverse)

/-- Rust `s.trim_start_matches('/')`: repeatedly removes a leading `'/'`
until none remains. -/
def trimStartMatchesSlash (s : String) : String :=
  String.mk (s.data.dropWhile (fun c => c == '/'))

/-- Lines 98-101 of `openai_proxy.rs`: the target URL
`format!("{}/{}", base_url.trim_end_matches('/'), path.trim_start_matches('/'))`. -/
def buildUrl (base path : String) : String :=
  trimEndMatchesSlash base ++ "/" ++ trimStartMatchesSlash path

/-- Stated from the spec sentence of C1 (for comparison with `buildUrl`):
remove exactly ONE trailing `'/'` from the base (if present) and exactly ONE
leading `'/'` from the path (if present), then join with a single `'/'`. -/
def dropOneTrailingSlash (s : String) : String :=
  if s.data.getLast? = some '/' then String.mk s.data.dropLast else s

/-- Stated from the spec sentence of C1: remove exactly one leading slash. -/
def dropOneLeadingSlash (s : String) : String :=
  if s.data.head? = some '/' then String.mk s.data.tail else s

/-- Stated from the spec sentence of C1: the URL the claim predicts. -/
def claimUrl (base path : String) : String :=
  dropOneTrailingSlash base ++ "/" ++ dropOneLeadingSlash path

/-! ### Data model (`openai_proxy.rs` lines 8-41) -/

/-- The `ProxyConfig` record. -/
structure ProxyConfig where
  http_proxy : Option String
  https_proxy : Option String

/-- The `OpenAIRequest` record.  The JSON body (`Option<serde_json::Value>`) is carried
as its serialised text, which the executor never inspects beyond presence;
the `HashMap` of additional headers is carried as a list of pairs in the
(arbitrary) order the map iterates them. -/
structure OpenAIRequest where
  base_url : String
  api_key : String
  method : String
  path : String
  body : Option String
  additional_headers : Option (List (String × String))
  proxy_config : Option ProxyConfig

/-- The `FileUploadRequest` record. -/
structure FileUploadRequest where
  base_url : String
  api_key : String
  file_data : String
  file_name : String
  purpose : String
  additional_headers : Option (List (String × String))
  proxy_config : Option ProxyConfig

/-- The `OpenAIResponse` record.  The body is the response text carried as its UTF-8
bytes, so that `List.length` matches the Rust byte length `body.len()`. -/
structure OpenAIResponse where
  status : Nat
  body : List UInt8
  headers : List (String × String)

/-! ### Transport oracles

`reqwest` is outside the repository; each external call the executor makes is
an oracle field giving the outcome of that call.  A raw header value is `none`
when `HeaderValue::to_str()` fails (non-UTF-8 value). -/

/-- Outcome of a completed `send()`: remote status, raw headers, and the
outcome of reading the body (`response.text()`). -/
structure HttpResponseRaw where
  status : Nat
  headers : List (String × Option String)
  bodyRead : Except String (List UInt8)

/-- A `reqwest::Error` from `send()`, as the classification code of lines
163-181 observes it: the `is_connect/is_timeout/is_request/is_decode`
predicates and the `to_string()` rendering. -/
structure SendError where
  isConnect : Bool
  isTimeout : Bool
  isRequest : Bool
  isDecode : Bool
  msg : String

/-- Oracle for the external calls of `make_openai_request`.  `elapsed` is the
`Debug` rendering of the elapsed `Duration` used in the timeout message. -/
structure Transport where
  proxyHttp : String → Except String Unit
  proxyHttps : String → Except String Unit
  clientBuild : Except String Unit
  send : Except SendError HttpResponseRaw
  elapsed : String

/-- Oracle for the external calls of `upload_file_to_openai`. -/
structure UploadTransport where
  proxyHttp : String → Except String Unit
  proxyHttps : String → Except String Unit
  clientBuild : Except String Unit
  mimePart : Except String Unit
  send : Except String HttpResponseRaw

/-! ### Request executor (`make_openai_request`, lines 43-268) -/

/-- One `if let Some(p) = ... { if !p.is_empty() { Proxy::..(p).map_err(..)? } }`
block of lines 56-67 / 69-81: when a proxy URL is configured and non-empty,
apply it and map a parse failure through the given message builder. -/
def proxyApply (mkMsg : String → String → String) (url? : Option String)
    (parse : String → Except String Unit) : Except String Unit :=
  match url? with
  | some hp =>
    if hp = "" then .ok ()
    else (parse hp).mapError fun e => mkMsg e hp
  | none => .ok ()

/-- Lines 55-82: apply `Proxy::http` / `Proxy::https` for each configured,
non-empty proxy URL; a parse failure aborts the call with the tagged
diagnostic of lines 62 and 75. -/
def proxyStepRequest (rid : String) (pc? : Option ProxyConfig) (tr : Transport) :
    Except String Unit :=
  match pc? with
  | none => .ok ()
  | some pc =>
    (proxyApply
        (fun e hp => tagged rid ("HTTP proxy configuration error: " ++ e ++ " (Proxy: " ++ hp ++ ")"))
        pc.http_proxy tr.proxyHttp) >>= fun _ =>
      proxyApply
        (fun e hp => tagged rid ("HTTPS proxy configuration error: " ++ e ++ " (Proxy: " ++ hp ++ ")"))
        pc.https_proxy tr.proxyHttps

/-- Full Unicode uppercasing of one character, as Rust `char::to_uppercase`
is observed through the five-way ASCII comparison below.  The characters
whose full uppercase consists of ASCII letters only are exactly the ASCII
letters themselves and the ten listed here: dotless i (U+0131) and long s
(U+017F) are the only simple mappings of UnicodeData.txt landing in A-Z,
and sharp s, the five f-ligatures and the two st-ligatures are the only
multi-character mappings of SpecialCasing.txt made of ASCII letters alone
(the remaining multi-character mappings — apostrophe-n, j-caron, the
Armenian ligatures, the Greek iota-subscript forms, h/t/w/y with combining
marks, a-ring — all keep a non-ASCII character).  Every other character
uppercases in Rust to a string containing at least one non-ASCII character
and is modelled by the character itself, which is likewise non-ASCII; the
comparison of the uppercased string with the five ASCII method names is
therefore the same as in the program for every input string. -/
def rustUpperChar (c : Char) : List Char :=
  if c = 'ı' then ['I']
  else if c = 'ſ' then ['S']
  else if c = 'ß' then ['S', 'S']
  else if c = 'ﬀ' then ['F', 'F']
  else if c = 'ﬁ' then ['F', 'I']
  else if c = 'ﬂ' then ['F', 'L']
  else if c = 'ﬃ' then ['F', 'F', 'I']
  else if c = 'ﬄ' then ['F', 'F', 'L']
  else if c = 'ﬅ' then ['S', 'T']
  else if c = 'ﬆ' then ['S', 'T']
  else [c.toUpper]

/-- Rust `str::to_uppercase`: the concatenation of the per-character
uppercase mappings. -/
def rustToUpper (s : String) : String :=
  String.mk (s.data.flatMap rustUpperChar)

/-- Line 124: `request.method.to_uppercase()` matched against the five
supported methods. -/
def methodValid (m : String) : Bool :=
  match rustToUpper m with
  | "GET" | "POST" | "PUT" | "DELETE" | "PATCH" => true
  | _ => false

/-- Lines 133-146: the headers attached to the outgoing request, in the
order the `RequestBuilder::header` calls are made.  In `reqwest`,
`RequestBuilder::header` APPENDS a value to the header map
(`HeaderMap::append`); a repeated name accumulates values, it is not
replaced.  The list therefore keeps every appended pair. -/
def requestHeaders (req : OpenAIRequest) : List (String × String) :=
  let withAuth := [("Authorization", "Bearer " ++ req.api_key)]
  let withAdditional := withAuth ++ req.additional_headers.getD []
  if req.body.isSome then withAdditional ++ [("Content-Type", "application/json")]
  else withAdditional

/-- Lines 162-181: substring-based classification of a `send()` failure. -/
def classifySendError (rid elapsed : String) (e : SendError) : String :=
  if e.isConnect then
    if containsStr e.msg "dns" || containsStr e.msg "resolve" then
      tagged rid ("DNS resolution failed: " ++ e.msg ++ " (Check domain name or DNS settings)")
    else if containsStr e.msg "certificate" || containsStr e.msg "ssl" || containsStr e.msg "tls" then
      tagged rid ("SSL/TLS error: " ++ e.msg ++ " (Check certificate validity or security settings)")
    else if containsStr e.msg "407" || containsStr e.msg "Proxy Authentication" then
      tagged rid ("Proxy authentication required: " ++ e.msg ++ " (Check proxy credentials)")
    else
      tagged rid ("Connection failed: " ++ e.msg ++ " (Check network/proxy settings)")
  else if e.isTimeout then
    tagged rid ("Request timeout after " ++ elapsed ++ ": " ++ e.msg)
  else if e.isRequest then
    tagged rid ("Request error: " ++ e.msg)
  else if e.isDecode then
    tagged rid ("Response decode error: " ++ e.msg)
  else
    tagged rid ("Failed to send request: " ++ e.msg)

/-- Lines 198-203 (and 348-353): response headers whose value decodes as
text are kept; a non-decodable value is dropped from the map. -/
def decodeHeaders (hs : List (String × Option String)) : List (String × String) :=
  hs.filterMap fun kv => kv.2.map fun v => (kv.1, v)

/-- Line 206: `MAX_RESPONSE_SIZE`, 50 MiB. -/
def MAX_RESPONSE_SIZE : Nat := 50 * 1024 * 1024

/-- The request as handed to the transport when a send is attempted. -/
structure SentRequest where
  url : String
  headers : List (String × String)

/-- Result of one executor invocation: `sent` is `none` when the call failed
before any network activity, otherwise it records the request given to the
transport. -/
structure ExecOutcome where
  sent : Option SentRequest
  result : Except String OpenAIResponse

/-- The function `make_openai_request`, lines 43-268, with the external calls drawn from
the oracle `tr` and the fresh `Uuid::new_v4()` correlation identifier as
`rid`.  Logging is omitted (it does not affect the returned value). -/
def makeOpenAIRequest (rid : String) (req : OpenAIRequest) (tr : Transport) : ExecOutcome :=
  match proxyStepRequest rid req.proxy_config tr with
  | .error e => ⟨none, .error e⟩
  | .ok _ =>
    match tr.clientBuild with
    | .error e => ⟨none, .error (tagged rid ("Failed to build HTTP client: " ++ e))⟩
    | .ok _ =>
      let url := buildUrl req.base_url req.path
      if methodValid req.method then
        let hdrs := requestHeaders req
        match tr.send with
        | .error e => ⟨some ⟨url, hdrs⟩, .error (classifySendError rid tr.elapsed e)⟩
        | .ok resp =>
          let respHeaders := decodeHeaders resp.headers
          match resp.bodyRead with
          | .error e =>
            ⟨some ⟨url, hdrs⟩, .error (tagged rid ("Failed to read response body: " ++ e))⟩
          | .ok body =>
            if MAX_RESPONSE_SIZE < body.length then
              ⟨some ⟨url, hdrs⟩,
               .error (tagged rid ("Response too large: " ++ toString body.length ++
                 " bytes (limit: " ++ toString MAX_RESPONSE_SIZE ++ " bytes)"))⟩
            else
              ⟨some ⟨url, hdrs⟩, .ok ⟨resp.status, body, respHeaders⟩⟩
      else ⟨none, .error ("Unsupported HTTP method: " ++ req.method)⟩

/-! ### Base64 (the `general_purpose::STANDARD` engine of the `base64` crate)

Standard alphabet, canonical padding required, trailing bits rejected.  The
rendering of the crate `DecodeError` is abstracted to a short message; the
executor only splices it into its own tagged diagnostic. -/

/-- Value of one symbol of the standard base64 alphabet. -/
def b64Val (c : Char) : Option Nat :=
  if 'A' ≤ c ∧ c ≤ 'Z' then some (c.toNat - 65)
  else if 'a' ≤ c ∧ c ≤ 'z' then some (c.toNat - 97 + 26)
  else if '0' ≤ c ∧ c ≤ '9' then some (c.toNat - 48 + 52)
  else if c = '+' then some 62
  else if c = '/' then some 63
  else none

/-- Decode canonically padded base64, four symbols at a time. -/
def decodeChunks : List Char → Except String (List UInt8)
  | [] => .ok []
  | a :: b :: c :: d :: rest =>
    match b64Val a, b64Val b with
    | some va, some vb =>
      if c = '=' then
        if d = '=' ∧ rest = [] then
          if vb % 16 = 0 then .ok [UInt8.ofNat (va * 4 + vb / 16)]
          else .error "Invalid last symbol"
        else .error "Invalid padding"
      else
        match b64Val c with
        | some vc =>
          if d = '=' then
            if rest = [] then
              if vc % 4 = 0 then
                .ok [UInt8.ofNat (va * 4 + vb / 16), UInt8.ofNat (vb % 16 * 16 + vc / 4)]
              else .error "Invalid last symbol"
            else .error "Invalid padding"
          else
            match b64Val d with
            | some vd =>
              (decodeChunks rest).map fun tail =>
                UInt8.ofNat (va * 4 + vb / 16) :: UInt8.ofNat (vb % 16 * 16 + vc / 4) ::
                  UInt8.ofNat (vc % 4 * 64 + vd) :: tail
            | none => .error "Invalid byte"
        | none => .error "Invalid byte"
    | _, _ => .error "Invalid byte"
  | _ => .error "Invalid length"

/-- The crate call `general_purpose::STANDARD.decode` on a string payload. -/
def base64Decode (s : String) : Except String (List UInt8) :=
  decodeChunks s.data

/-! ### Upload executor (`upload_file_to_openai`, lines 270-377) -/

/-- Lines 280-295: proxy application in the upload executor; its diagnostics
(lines 284 and 291) are shorter than those of the request executor. -/
def proxyStepUpload (rid : String) (pc? : Option ProxyConfig) (tr : UploadTransport) :
    Except String Unit :=
  match pc? with
  | none => .ok ()
  | some pc =>
    (proxyApply (fun e _ => tagged rid ("HTTP proxy error: " ++ e))
        pc.http_proxy tr.proxyHttp) >>= fun _ =>
      proxyApply (fun e _ => tagged rid ("HTTPS proxy error: " ++ e))
        pc.https_proxy tr.proxyHttps

/-- Lines 318-320: the multipart form, one file part and one text part. -/
structure MultipartForm where
  fileBytes : List UInt8
  fileName : String
  purpose : String

/-- Lines 324-333: headers attached to the upload request, in call order
(append semantics, as in `requestHeaders`). -/
def uploadHeaders (req : FileUploadRequest) : List (String × String) :=
  ("Authorization", "Bearer " ++ req.api_key) :: req.additional_headers.getD []

/-- The upload request as handed to the transport. -/
structure UploadSent where
  url : String
  headers : List (String × String)
  form : MultipartForm

/-- Result of one upload invocation. -/
structure UploadOutcome where
  sent : Option UploadSent
  result : Except String OpenAIResponse

/-- The function `upload_file_to_openai`, lines 270-377.  Note: unlike
`make_openai_request`, the body read at lines 355-359 is followed by NO size
check; the envelope is returned for a body of any length. -/
def uploadFileToOpenai (rid : String) (req : FileUploadRequest) (tr : UploadTransport) :
    UploadOutcome :=
  match proxyStepUpload rid req.proxy_config tr with
  | .error e => ⟨none, .error e⟩
  | .ok _ =>
    match tr.clientBuild with
    | .error e => ⟨none, .error (tagged rid ("Failed to build HTTP client: " ++ e))⟩
    | .ok _ =>
      match base64Decode req.file_data with
      | .error e => ⟨none, .error (tagged rid ("Base64 decode error: " ++ e))⟩
      | .ok fileBytes =>
        let url := trimEndMatchesSlash req.base_url ++ "/files"
        match tr.mimePart with
        | .error e => ⟨none, .error (tagged rid ("Failed to create file part: " ++ e))⟩
        | .ok _ =>
          let form : MultipartForm := ⟨fileBytes, req.file_name, req.purpose⟩
          let hdrs := uploadHeaders req
          match tr.send with
          | .error e =>
            ⟨some ⟨url, hdrs, form⟩, .error (tagged rid ("Failed to upload file: " ++ e))⟩
          | .ok resp =>
            let respHeaders := decodeHeaders resp.headers
            match resp.bodyRead with
            | .error e =>
              ⟨some ⟨url, hdrs, form⟩, .error (tagged rid ("Failed to read response: " ++ e))⟩
            | .ok body => ⟨some ⟨url, hdrs, form⟩, .ok ⟨resp.status, body, respHeaders⟩⟩

/-! ### Configuration loader (`secure_config.rs`) -/

/-- The `SecureOrgWhitelistEntry` record. -/
structure SecureOrgWhitelistEntry where
  id : Option String
  org_id : String
  org_name : String
  added_at : Option String
  added_by : Option String
  notes : Option String

/-- The `SecureFeatureRestrictions` record. -/
structure SecureFeatureRestrictions where
  allow_web_search : Option Bool
  allow_vector_store : Option Bool
  allow_file_upload : Option Bool
  allow_chat_file_attachment : Option Bool

/-- The `SecureConfig` record. -/
structure SecureConfig where
  version : Option Nat
  org_whitelist : List SecureOrgWhitelistEntry
  admin_password_hash : Option String
  features : Option SecureFeatureRestrictions
  signature : Option String

/-- The `SecureConfigSearchPath` record. -/
structure SecureConfigSearchPath where
  path : String
  label : String

/-- The `SecureConfigResult` record. -/
structure SecureConfigResult where
  config : Option SecureConfig
  path : Option String
  searched_paths : List SecureConfigSearchPath

/-- Oracle for the external collaborators of the loader: `Path::exists`,
`fs::read`, and `serde_json::from_slice::<SecureConfig>`.  Paths are their
`display()` strings. -/
structure ConfigFS where
  pathExists : String → Bool
  readFile : String → Except String (List UInt8)
  parseConfig : List UInt8 → Except String SecureConfig

/-- Lines 184-188 (and 143-147): drop a leading UTF-8 byte-order mark. -/
def stripBom : List UInt8 → List UInt8
  | 0xEF :: 0xBB :: 0xBF :: rest => rest
  | data => data

/-- The `searched_paths` list built at lines 198-204 / 213-219: every
candidate with its label, in order. -/
def searchedOf (cands : List (String × String)) : List SecureConfigSearchPath :=
  cands.map fun pl => ⟨pl.1, pl.2⟩

/-- The `for` loop of `load_secure_config` (lines 168-211) over the
remaining candidates; `all` is the full candidate list (used for
`searched_paths`).  A candidate that does not exist is skipped; one that
exists but fails to read or parse aborts the whole call through the `?`
operator. -/
def loadLoop (all : List (String × String)) (fs : ConfigFS) :
    List (String × String) → Except String SecureConfigResult
  | [] => .ok ⟨none, none, searchedOf all⟩
  | (p, _) :: rest =>
    if fs.pathExists p then
      match fs.readFile p with
      | .error e => .error ("config.pkg の読み込みに失敗しました (" ++ p ++ "): " ++ e)
      | .ok data =>
        match fs.parseConfig (stripBom data) with
        | .error e => .error ("config.pkg の解析に失敗しました (" ++ p ++ "): " ++ e)
        | .ok config => .ok ⟨some config, some p, searchedOf all⟩
    else loadLoop all fs rest

/-- The function `load_secure_config` (lines 164-226), over an abstract candidate list
(the `candidate_paths` result: `(path, label)` pairs in priority order). -/
def loadSecureConfig (cands : List (String × String)) (fs : ConfigFS) :
    Except String SecureConfigResult :=
  loadLoop cands fs cands

/-! ### Concrete fixtures used by witnesses and counterexamples -/

/-- A transport where every external call succeeds and the remote answers
`200` with an empty body. -/
def trOk : Transport :=
  ⟨fun _ => .ok (), fun _ => .ok (), .ok (), .ok ⟨200, [], .ok []⟩, "1s"⟩

/-- A transport whose remote answers `200` with a body of exactly 50 MiB. -/
def trBody50 : Transport :=
  ⟨fun _ => .ok (), fun _ => .ok (), .ok (),
   .ok ⟨200, [], .ok (List.replicate 52428800 (0 : UInt8))⟩, "1s"⟩

/-- A transport whose remote answers `200` with a body of 50 MiB + 1. -/
def trBody51 : Transport :=
  ⟨fun _ => .ok (), fun _ => .ok (), .ok (),
   .ok ⟨200, [], .ok (List.replicate 52428801 (0 : UInt8))⟩, "1s"⟩

/-- A transport whose remote answers `500` with a one-byte body. -/
def tr500 : Transport :=
  ⟨fun _ => .ok (), fun _ => .ok (), .ok (),
   .ok ⟨500, [("x-request-id", some "1")], .ok [123]⟩, "1s"⟩

/-- A transport whose remote answers `500` with a body of 50 MiB + 1. -/
def tr500Big : Transport :=
  ⟨fun _ => .ok (), fun _ => .ok (), .ok (),
   .ok ⟨500, [], .ok (List.replicate 52428801 (0 : UInt8))⟩, "1s"⟩

/-- A transport whose client construction fails. -/
def trBuildFail : Transport :=
  ⟨fun _ => .ok (), fun _ => .ok (), .error "boom", .ok ⟨200, [], .ok []⟩, "1s"⟩

/-- A plain GET descriptor. -/
def reqGet : OpenAIRequest :=
  ⟨"https://api.example.com/", "sk-test", "GET", "/v1/chat", none, none, none⟩

/-- A descriptor with the unsupported method `TRACE`. -/
def reqTrace : OpenAIRequest :=
  ⟨"https://api.example.com/", "sk-test", "TRACE", "/v1/chat", none, none, none⟩

/-- A descriptor whose additional headers carry a caller `Authorization`. -/
def reqAuth : OpenAIRequest :=
  ⟨"https://api.example.com/", "sk-test", "POST", "/v1/chat", none,
   some [("Authorization", "custom-token")], none⟩

/-- An upload transport where every external call succeeds and the remote
answers `200` with a one-byte body. -/
def upTrOk : UploadTransport :=
  ⟨fun _ => .ok (), fun _ => .ok (), .ok (), .ok (), .ok ⟨200, [], .ok [1]⟩⟩

/-- An upload transport whose remote answers `200` with 50 MiB + 1 bytes. -/
def upTrBig : UploadTransport :=
  ⟨fun _ => .ok (), fun _ => .ok (), .ok (), .ok (),
   .ok ⟨200, [], .ok (List.replicate 52428801 (0 : UInt8))⟩⟩

/-- A well-formed upload descriptor (`"aGk="` decodes to `"hi"`). -/
def upReqOk : FileUploadRequest :=
  ⟨"https://api.example.com/", "sk-test", "aGk=", "notes.txt", "assistants", none, none⟩

/-- An upload descriptor whose payload is not base64. -/
def upReqBad : FileUploadRequest :=
  ⟨"https://api.example.com/", "sk-test", "####", "notes.txt", "assistants", none, none⟩

/-- A filesystem where candidate `A` exists but holds malformed JSON while
candidate `B` exists and parses. -/
def fsFirstBad : ConfigFS :=
  ⟨fun _ => true,
   fun p => .ok (if p = "A" then [0] else [1]),
   fun d => if d = [0] then .error "expected value at line 1 column 1"
            else .ok ⟨some 1, [], none, none, none⟩⟩

/-- A filesystem where `X` is missing and `A` exists but holds malformed
JSON. -/
def fsSkipThenBad : ConfigFS :=
  ⟨fun p => p != "X",
   fun _ => .ok [0],
   fun _ => .error "bad"⟩

/-- A filesystem with no file at all. -/
def fsEmpty : ConfigFS :=
  ⟨fun _ => false, fun _ => .error "io", fun _ => .error "parse"⟩

/-! ## Helper lemmas -/

theorem hasSub_append_left (x : List Char) {pat hay : List Char}
    (h : hasSub pat hay = true) : hasSub pat (x ++ hay) = true := by
  induction x with
  | nil => simpa using h
  | cons c t ih => simp [hasSub, ih]

theorem hasSub_self_append (pat t : List Char) : hasSub pat (pat ++ t) = true := by
  cases pat with
  | nil =>
    cases t with
    | nil => rfl
    | cons c t => simp [hasSub]
  | cons a as =>
    have hpre : (a :: as).isPrefixOf (a :: as ++ t) = true := by
      simp [ List.isPrefixOf_iff_prefix]
    simp [hasSub, hpre]

theorem containsStr_tagged (rid s : String) : containsStr (tagged rid s) rid = true := by
  have hdata : (tagged rid s).data =
      ("[Request ").data ++ (rid.data ++ (("] ").data ++ s.data)) := by
    simp [tagged, String.data_append]
  rw [containsStr, hdata]
  exact hasSub_append_left _ (hasSub_self_append _ _)

theorem classifySendError_contains (rid elapsed : String) (e : SendError) :
    containsStr (classifySendError rid elapsed e) rid = true := by
  unfold classifySendError
  repeat' split
  all_goals exact containsStr_tagged _ _

theorem proxyApply_error_contains {rid : String} {mkMsg : String → String → String}
    {url? : Option String} {parse : String → Except String Unit} {e : String}
    (hmsg : ∀ s hp, containsStr (mkMsg s hp) rid = true)
    (h : proxyApply mkMsg url? parse = .error e) : containsStr e rid = true := by
  unfold proxyApply at h
  split at h
  · split at h
    · exact absurd h (by simp)
    · rcases hx : parse _ with _ | _ <;> rw [hx] at h <;>
        simp [Except.mapError] at h
      subst h; exact hmsg _ _
  · exact absurd h (by simp)

theorem proxyStepRequest_error_contains {rid : String} {pc? : Option ProxyConfig}
    {tr : Transport} {e : String} (h : proxyStepRequest rid pc? tr = .error e) :
    containsStr e rid = true := by
  unfold proxyStepRequest at h
  split at h
  · exact absurd h (by simp)
  · rename_i pc
    cases hfst : proxyApply
        (fun e hp =>
          tagged rid ("HTTP proxy configuration error: " ++ e ++ " (Proxy: " ++ hp ++ ")"))
        pc.http_proxy tr.proxyHttp with
    | error e1 =>
      rw [hfst] at h
      have he : e1 = e := by simpa [Bind.bind, Except.bind] using h
      subst he
      exact proxyApply_error_contains (fun s hp => containsStr_tagged _ _) hfst
    | ok u =>
      rw [hfst] at h
      simp only [Bind.bind, Except.bind] at h
      exact proxyApply_error_contains (fun s hp => containsStr_tagged _ _) h

theorem proxyStepUpload_error_contains {rid : String} {pc? : Option ProxyConfig}
    {tr : UploadTransport} {e : String} (h : proxyStepUpload rid pc? tr = .error e) :
    containsStr e rid = true := by
  unfold proxyStepUpload at h
  split at h
  · exact absurd h (by simp)
  · rename_i pc
    cases hfst : proxyApply (fun e _ => tagged rid ("HTTP proxy error: " ++ e))
        pc.http_proxy tr.proxyHttp with
    | error e1 =>
      rw [hfst] at h
      have he : e1 = e := by simpa [Bind.bind, Except.bind] using h
      subst he
      exact proxyApply_error_contains (fun s hp => containsStr_tagged _ _) hfst
    | ok u =>
      rw [hfst] at h
      simp only [Bind.bind, Except.bind] at h
      exact proxyApply_error_contains (fun s hp => containsStr_tagged _ _) h

theorem head?_dropWhile_false {α : Type} (p : α → Bool) :
    ∀ (l : List α) (c : α), (l.dropWhile p).head? = some c → p c = false := by
  intro l
  induction l with
  | nil => intro c h; simp [List.dropWhile] at h
  | cons a t ih =>
    intro c h
    rw [List.dropWhile_cons] at h
    by_cases ha : p a = true
    · rw [if_pos ha] at h; exact ih c h
    · rw [if_neg ha] at h
      simp at h
      rw [← h]
      exact Bool.eq_false_iff.mpr ha

theorem takeWhile_slash_replicate (l : List Char) :
    l.takeWhile (fun c => c == '/') =
      List.replicate (l.takeWhile (fun c => c == '/')).length '/' := by
  refine List.eq_replicate_length.mpr ?_
  intro b hb
  have h := List.mem_takeWhile_imp hb
  simpa using h

/-! ## C1 — target-URL construction -/

/-- C1, counterexample: on a base URL ending in two slashes, the code
(`trim_end_matches`, which removes every trailing slash) and the claim
(remove exactly one trailing slash) produce different URLs. -/
theorem buildUrl_ne_claimUrl :
    buildUrl "https://api.example.com//" "v1/chat" = "https://api.example.com/v1/chat" ∧
    claimUrl "https://api.example.com//" "v1/chat" = "https://api.example.com//v1/chat" ∧
    buildUrl "https://api.example.com//" "v1/chat" ≠
      claimUrl "https://api.example.com//" "v1/chat" := by
  refine ⟨by decide, by decide, by decide⟩

/-- C1 (amended): the executor removes ALL trailing slashes from the base
URL and ALL leading slashes from the path, then joins with a single slash;
the trimmed parts are otherwise unchanged (the originals are the trimmed
strings padded with slashes), and the trimmed base ends in no slash while
the trimmed path starts with none. -/
theorem buildUrl_trims_all_slashes (base path : String) :
    ∃ m n : Nat,
      base.data = (trimEndMatchesSlash base).data ++ List.replicate m '/' ∧
      path.data = List.replicate n '/' ++ (trimStartMatchesSlash path).data ∧
      (trimEndMatchesSlash base).data.getLast? ≠ some '/' ∧
      (trimStartMatchesSlash path).data.head? ≠ some '/' ∧
      buildUrl base path = trimEndMatchesSlash base ++ "/" ++ trimStartMatchesSlash path := by
  refine ⟨(base.data.reverse.takeWhile (fun c => c == '/')).length,
          (path.data.takeWhile (fun c => c == '/')).length, ?_, ?_, ?_, ?_, rfl⟩
  · have hsplit := List.takeWhile_append_dropWhile (fun c => c == '/') base.data.reverse
    have : base.data.reverse.reverse =
        (base.data.reverse.dropWhile (fun c => c == '/')).reverse ++
          (base.data.reverse.takeWhile (fun c => c == '/')).reverse := by
      rw [← List.reverse_append, hsplit]
    rw [List.reverse_reverse] at this
    conv_lhs => rw [this, takeWhile_slash_replicate base.data.reverse, List.reverse_replicate]
    rfl
  · have hsplit := List.takeWhile_append_dropWhile (fun c => c == '/') path.data
    conv_lhs => rw [← hsplit, takeWhile_slash_replicate path.data]
    rfl
  · intro hlast
    have : (trimEndMatchesSlash base).data.getLast? =
        (base.data.reverse.dropWhile (fun c => c == '/')).head? := by
      simp [trimEndMatchesSlash, List.getLast?_reverse]
    rw [this] at hlast
    have := head?_dropWhile_false _ _ _ hlast
    simp at this
  · intro hhead
    have := head?_dropWhile_false (fun c => c == '/') path.data '/' hhead
    simp at this

/-- C1, scenario from the spec: the documented example still holds under
all-slash trimming. -/
theorem buildUrl_scenario :
    buildUrl "https://api.example.com/" "/v1/chat" = "https://api.example.com/v1/chat" := by
  decide

/-! ## C2 — caller-supplied Authorization header -/

/-- Whenever a send is attempted, the request handed to the transport is the
constructed URL together with the assembled headers. -/
theorem sent_request_eq {rid : String} {req : OpenAIRequest} {tr : Transport}
    {sr : SentRequest} (h : (makeOpenAIRequest rid req tr).sent = some sr) :
    sr = ⟨buildUrl req.base_url req.path, requestHeaders req⟩ := by
  unfold makeOpenAIRequest at h
  split at h
  · simp at h
  · split at h
    · simp at h
    · split at h
      · split at h
        · simp at h
          exact h.symm
        · split at h
          · simp at h
            exact h.symm
          · split at h <;> simp at h <;> exact h.symm
      · simp at h

/-- C2, counterexample: with a caller-supplied `Authorization` header, the
request carries BOTH values — `RequestBuilder::header` appends, so the
bearer-token header set first is still present, not overridden. -/
theorem authHeader_counterexample :
    (makeOpenAIRequest "r" reqAuth trOk).sent =
      some ⟨"https://api.example.com/v1/chat",
            [("Authorization", "Bearer sk-test"), ("Authorization", "custom-token")]⟩ ∧
    ("Authorization", "Bearer sk-test") ∈ requestHeaders reqAuth := by
  exact ⟨rfl, by decide⟩

/-- C2 (amended): a caller-supplied `Authorization` entry is carried IN
ADDITION to the `Bearer <api_key>` header: both appear among the headers of
the request handed to the transport (append semantics, not last-write-wins). -/
theorem authHeader_appended (rid : String) (req : OpenAIRequest) (tr : Transport)
    (hs : List (String × String)) (v : String) (sr : SentRequest)
    (hadd : req.additional_headers = some hs)
    (hv : ("Authorization", v) ∈ hs)
    (hsent : (makeOpenAIRequest rid req tr).sent = some sr) :
    ("Authorization", "Bearer " ++ req.api_key) ∈ sr.headers ∧
      ("Authorization", v) ∈ sr.headers := by
  have hsr := sent_request_eq hsent
  have hh : sr.headers = requestHeaders req := by rw [hsr]
  rw [hh]
  constructor
  · by_cases hb : req.body.isSome <;> simp [requestHeaders, hadd, hb]
  · by_cases hb : req.body.isSome <;> simp [requestHeaders, hadd, hb] <;> tauto

/-- C2 witness: the amended theorem applied to the concrete descriptor. -/
theorem authHeader_appended_witness :
    ("Authorization", "Bearer sk-test") ∈
      (SentRequest.mk "https://api.example.com/v1/chat"
        [("Authorization", "Bearer sk-test"), ("Authorization", "custom-token")]).headers ∧
    ("Authorization", "custom-token") ∈
      (SentRequest.mk "https://api.example.com/v1/chat"
        [("Authorization", "Bearer sk-test"), ("Authorization", "custom-token")]).headers :=
  authHeader_appended "w2" reqAuth trOk [("Authorization", "custom-token")] "custom-token"
    ⟨"https://api.example.com/v1/chat",
     [("Authorization", "Bearer sk-test"), ("Authorization", "custom-token")]⟩
    rfl (by decide) rfl

/-! ## Shared characterization of the request executor success path -/

/-- When every stage up to the body read succeeds and the body is within the
ceiling, the executor returns the envelope. -/
theorem result_ok_of_small {rid : String} {req : OpenAIRequest} {tr : Transport}
    {resp : HttpResponseRaw} {body : List UInt8}
    (hpx : proxyStepRequest rid req.proxy_config tr = .ok ())
    (hb : tr.clientBuild = .ok ())
    (hm : methodValid req.method = true)
    (hs : tr.send = .ok resp)
    (hbr : resp.bodyRead = .ok body)
    (hlen : body.length ≤ MAX_RESPONSE_SIZE) :
    (makeOpenAIRequest rid req tr).result =
      .ok ⟨resp.status, body, decodeHeaders resp.headers⟩ := by
  simp only [makeOpenAIRequest, hpx, hb, hm, hs, hbr, if_true]
  rw [if_neg (by omega)]

/-- When every stage up to the body read succeeds but the body exceeds the
ceiling, the executor discards the body and fails with the tagged size
diagnostic. -/
theorem result_too_large_of_big {rid : String} {req : OpenAIRequest} {tr : Transport}
    {resp : HttpResponseRaw} {body : List UInt8}
    (hpx : proxyStepRequest rid req.proxy_config tr = .ok ())
    (hb : tr.clientBuild = .ok ())
    (hm : methodValid req.method = true)
    (hs : tr.send = .ok resp)
    (hbr : resp.bodyRead = .ok body)
    (hlen : MAX_RESPONSE_SIZE < body.length) :
    (makeOpenAIRequest rid req tr).result =
      .error (tagged rid ("Response too large: " ++ toString body.length ++
        " bytes (limit: " ++ toString MAX_RESPONSE_SIZE ++ " bytes)")) := by
  simp only [makeOpenAIRequest, hpx, hb, hm, hs, hbr, if_true]
  rw [if_pos hlen]

/-! ## C5 — the 50 MiB response ceiling of the request executor -/

/-- C5: on a completed exchange, a fully-read body of at most 50 MiB
(52428800 bytes) is returned in the envelope, while a body of 50 MiB + 1
byte or more is discarded and the call fails with a too-large diagnostic
reporting the actual byte size and the limit. -/
theorem response_size_limit (rid : String) (req : OpenAIRequest) (tr : Transport)
    (resp : HttpResponseRaw) (body : List UInt8)
    (hpx : proxyStepRequest rid req.proxy_config tr = .ok ())
    (hb : tr.clientBuild = .ok ())
    (hm : methodValid req.method = true)
    (hs : tr.send = .ok resp)
    (hbr : resp.bodyRead = .ok body) :
    MAX_RESPONSE_SIZE = 52428800 ∧
    (body.length ≤ 52428800 →
      (makeOpenAIRequest rid req tr).result =
        .ok ⟨resp.status, body, decodeHeaders resp.headers⟩) ∧
    (52428800 < body.length →
      (makeOpenAIRequest rid req tr).result =
        .error (tagged rid ("Response too large: " ++ toString body.length ++
          " bytes (limit: " ++ toString MAX_RESPONSE_SIZE ++ " bytes)"))) := by
  refine ⟨rfl, ?_, ?_⟩
  · intro hlen
    exact result_ok_of_small hpx hb hm hs hbr hlen
  · intro hlen
    exact result_too_large_of_big hpx hb hm hs hbr (by rw [MAX_RESPONSE_SIZE]; omega)

/-- C5 witness: exactly 50 MiB is accepted, 50 MiB + 1 is rejected with the
size and the limit in the message. -/
theorem response_size_limit_witness :
    (makeOpenAIRequest "w5" reqGet trBody50).result =
      .ok ⟨200, List.replicate 52428800 (0 : UInt8), []⟩ ∧
    (makeOpenAIRequest "w5" reqGet trBody51).result =
      .error (tagged "w5" ("Response too large: " ++ toString (52428801 : Nat) ++
        " bytes (limit: " ++ toString MAX_RESPONSE_SIZE ++ " bytes)")) := by
  constructor
  · exact (response_size_limit "w5" reqGet trBody50
      ⟨200, [], .ok (List.replicate 52428800 (0 : UInt8))⟩
      (List.replicate 52428800 (0 : UInt8)) rfl rfl rfl rfl rfl).2.1
      (by rw [List.length_replicate])
  · have h := (response_size_limit "w5" reqGet trBody51
      ⟨200, [], .ok (List.replicate 52428801 (0 : UInt8))⟩
      (List.replicate 52428801 (0 : UInt8)) rfl rfl rfl rfl rfl).2.2
      (by rw [List.length_replicate]; omega)
    rw [List.length_replicate] at h
    exact h

/-! ## C6 — unsupported HTTP methods -/

/-- C6: a method outside GET/POST/PUT/DELETE/PATCH (case-insensitive) never
reaches the transport — no send is attempted whatever the oracle holds —
and, when proxy resolution and client construction succeed, the call fails
with an unsupported-method error naming the given method. -/
theorem unsupported_method_rejected (rid : String) (req : OpenAIRequest) (tr : Transport)
    (hm : methodValid req.method = false) :
    (makeOpenAIRequest rid req tr).sent = none ∧
    (proxyStepRequest rid req.proxy_config tr = .ok () → tr.clientBuild = .ok () →
      (makeOpenAIRequest rid req tr).result =
        .error ("Unsupported HTTP method: " ++ req.method)) := by
  constructor
  · cases hpx : proxyStepRequest rid req.proxy_config tr with
    | error e => simp [makeOpenAIRequest, hpx]
    | ok u =>
      cases hb : tr.clientBuild with
      | error e => simp [makeOpenAIRequest, hpx, hb]
      | ok v => simp [makeOpenAIRequest, hpx, hb, hm]
  · intro hpx hb
    simp [makeOpenAIRequest, hpx, hb, hm]

/-- Methods reaching `POST` only through full Unicode uppercasing (long s,
the st ligature) are accepted by the embedding exactly as by the program,
while `TRACE` stays unsupported. -/
theorem methodValid_unicode_cases :
    methodValid "poſt" = true ∧ methodValid "poﬅ" = true ∧ methodValid "TRACE" = false := by
  decide

/-- C6 witness: `TRACE` is rejected by name with no network activity. -/
theorem unsupported_method_rejected_witness :
    (makeOpenAIRequest "w6" reqTrace trOk).sent = none ∧
    (makeOpenAIRequest "w6" reqTrace trOk).result =
      .error "Unsupported HTTP method: TRACE" := by
  have h := unsupported_method_rejected "w6" reqTrace trOk (by decide)
  exact ⟨h.1, h.2 rfl rfl⟩

/-! ## C7 — remote status codes are never treated as failures -/

/-- C7, counterexample: a COMPLETED exchange (send succeeded, body fully
read) can still yield an error — remote status 500 with a fully-read body
of 50 MiB + 1 bytes produces the too-large error, not an envelope. -/
theorem status_preserved_counterexample :
    (makeOpenAIRequest "c7" reqGet tr500Big).result =
      .error (tagged "c7" ("Response too large: " ++ toString (52428801 : Nat) ++
        " bytes (limit: " ++ toString MAX_RESPONSE_SIZE ++ " bytes)")) := by
  have h := @result_too_large_of_big "c7" reqGet tr500Big
    ⟨500, [], .ok (List.replicate 52428801 (0 : UInt8))⟩
    (List.replicate 52428801 (0 : UInt8)) rfl rfl rfl rfl rfl
    (by rw [List.length_replicate, MAX_RESPONSE_SIZE]; omega)
  rw [List.length_replicate] at h
  exact h

/-- C7 (amended): for every completed exchange whose fully-read body is
within the 50 MiB ceiling, the executor returns a successful envelope
carrying the remote status code whatever its value — 4xx/5xx included. -/
theorem status_preserved (rid : String) (req : OpenAIRequest) (tr : Transport)
    (resp : HttpResponseRaw) (body : List UInt8)
    (hpx : proxyStepRequest rid req.proxy_config tr = .ok ())
    (hb : tr.clientBuild = .ok ())
    (hm : methodValid req.method = true)
    (hs : tr.send = .ok resp)
    (hbr : resp.bodyRead = .ok body)
    (hlen : body.length ≤ MAX_RESPONSE_SIZE) :
    (makeOpenAIRequest rid req tr).result =
      .ok ⟨resp.status, body, decodeHeaders resp.headers⟩ :=
  result_ok_of_small hpx hb hm hs hbr hlen

/-- C7 witness: remote status 500 with a small valid body yields `Ok` with
`status = 500`. -/
theorem status_preserved_witness :
    (makeOpenAIRequest "w7" reqGet tr500).result =
      .ok ⟨500, [123], [("x-request-id", "1")]⟩ :=
  status_preserved "w7" reqGet tr500 ⟨500, [("x-request-id", some "1")], .ok [123]⟩
    [123] rfl rfl rfl rfl rfl (by simp [MAX_RESPONSE_SIZE])

/-! ## C4 — errors and the correlation identifier -/

/-- C4, counterexample: the unsupported-method error carries no correlation
identifier — for the identifier `3fa85f64` the returned error string does
not contain it. -/
theorem error_id_counterexample :
    (makeOpenAIRequest "3fa85f64" reqTrace trOk).result =
      .error "Unsupported HTTP method: TRACE" ∧
    containsStr "Unsupported HTTP method: TRACE" "3fa85f64" = false :=
  ⟨rfl, by decide⟩

/-- C4 (amended): every error either executor returns contains the
correlation identifier, EXCEPT the unsupported-method
error, which is exactly `Unsupported HTTP method: <method>` with no
identifier. -/
theorem errors_carry_correlation_id :
    (∀ (rid : String) (req : OpenAIRequest) (tr : Transport) (e : String),
      (makeOpenAIRequest rid req tr).result = .error e →
      containsStr e rid = true ∨ e = "Unsupported HTTP method: " ++ req.method) ∧
    (∀ (rid : String) (req : FileUploadRequest) (tr : UploadTransport) (e : String),
      (uploadFileToOpenai rid req tr).result = .error e →
      containsStr e rid = true) := by
  constructor
  · intro rid req tr e h
    unfold makeOpenAIRequest at h
    split at h
    · rename_i e1 hpx
      simp at h
      subst h
      exact .inl (proxyStepRequest_error_contains hpx)
    · split at h
      · simp at h
        subst h
        exact .inl (containsStr_tagged _ _)
      · split at h
        · split at h
          · simp at h
            subst h
            exact .inl (classifySendError_contains _ _ _)
          · split at h
            · simp at h
              subst h
              exact .inl (containsStr_tagged _ _)
            · split at h
              · simp at h
                subst h
                exact .inl (containsStr_tagged _ _)
              · simp at h
        · simp at h
          subst h
          exact .inr rfl
  · intro rid req tr e h
    unfold uploadFileToOpenai at h
    split at h
    · rename_i e1 hpx
      simp at h
      subst h
      exact proxyStepUpload_error_contains hpx
    · split at h
      · simp at h
        subst h
        exact containsStr_tagged _ _
      · split at h
        · simp at h
          subst h
          exact containsStr_tagged _ _
        · split at h
          · simp at h
            subst h
            exact containsStr_tagged _ _
          · split at h
            · simp at h
              subst h
              exact containsStr_tagged _ _
            · split at h
              · simp at h
                subst h
                exact containsStr_tagged _ _
              · simp at h

/-- C4 witness: a tagged request-executor error and a tagged upload error
both contain their correlation identifiers. -/
theorem errors_carry_correlation_id_witness :
    (containsStr "[Request w4] Failed to build HTTP client: boom" "w4" = true ∨
      "[Request w4] Failed to build HTTP client: boom" =
        "Unsupported HTTP method: " ++ reqGet.method) ∧
    containsStr "[Request w4] Base64 decode error: Invalid byte" "w4" = true :=
  ⟨errors_carry_correlation_id.1 "w4" reqGet trBuildFail
      "[Request w4] Failed to build HTTP client: boom" rfl,
   errors_carry_correlation_id.2 "w4" upReqBad upTrOk
      "[Request w4] Base64 decode error: Invalid byte" rfl⟩

/-! ## C3 — the upload executor has no response-size ceiling -/

/-- When every stage of the upload succeeds, the envelope is returned with
no condition on the body length. -/
theorem upload_result_ok {rid : String} {req : FileUploadRequest} {tr : UploadTransport}
    {resp : HttpResponseRaw} {body bytes : List UInt8}
    (hpx : proxyStepUpload rid req.proxy_config tr = .ok ())
    (hb : tr.clientBuild = .ok ())
    (hdec : base64Decode req.file_data = .ok bytes)
    (hmime : tr.mimePart = .ok ())
    (hs : tr.send = .ok resp)
    (hbr : resp.bodyRead = .ok body) :
    (uploadFileToOpenai rid req tr).result =
      .ok ⟨resp.status, body, decodeHeaders resp.headers⟩ := by
  simp only [uploadFileToOpenai, hpx, hb, hdec, hmime, hs, hbr]

/-- C3, counterexample: an upload whose response body is 50 MiB + 1 bytes is
returned successfully — the upload executor applies no too-large rejection. -/
theorem upload_size_counterexample :
    (uploadFileToOpenai "c3" upReqOk upTrBig).result =
      .ok ⟨200, List.replicate 52428801 (0 : UInt8), []⟩ ∧
    MAX_RESPONSE_SIZE < (List.replicate 52428801 (0 : UInt8)).length := by
  constructor
  · rfl
  · rw [List.length_replicate, MAX_RESPONSE_SIZE]
    omega

/-- C3 (amended): the upload executor applies NO response-size ceiling —
every fully-read body, of any length, is returned in the envelope; the
50 MiB ceiling exists only in the request executor. -/
theorem upload_no_size_ceiling (rid : String) (req : FileUploadRequest)
    (tr : UploadTransport) (resp : HttpResponseRaw) (body bytes : List UInt8)
    (hpx : proxyStepUpload rid req.proxy_config tr = .ok ())
    (hb : tr.clientBuild = .ok ())
    (hdec : base64Decode req.file_data = .ok bytes)
    (hmime : tr.mimePart = .ok ())
    (hs : tr.send = .ok resp)
    (hbr : resp.bodyRead = .ok body) :
    (uploadFileToOpenai rid req tr).result =
      .ok ⟨resp.status, body, decodeHeaders resp.headers⟩ :=
  upload_result_ok hpx hb hdec hmime hs hbr

/-- C3 witness: the amended theorem at a body of 50 MiB + 1 bytes. -/
theorem upload_no_size_ceiling_witness :
    (uploadFileToOpenai "w3" upReqOk upTrBig).result =
      .ok ⟨200, List.replicate 52428801 (0 : UInt8), []⟩ :=
  upload_no_size_ceiling "w3" upReqOk upTrBig
    ⟨200, [], .ok (List.replicate 52428801 (0 : UInt8))⟩
    (List.replicate 52428801 (0 : UInt8)) [104, 105] rfl rfl rfl rfl rfl rfl

/-! ## C8 — invalid base64 upload payloads -/

/-- C8: a payload that does not decode as base64 never reaches the
transport — no send is attempted whatever the oracle holds — and, when
proxy resolution and client construction succeed, the call fails with the
decode-classified error. -/
theorem upload_invalid_base64 (rid : String) (req : FileUploadRequest)
    (tr : UploadTransport) (e : String)
    (hdec : base64Decode req.file_data = .error e) :
    (uploadFileToOpenai rid req tr).sent = none ∧
    (proxyStepUpload rid req.proxy_config tr = .ok () → tr.clientBuild = .ok () →
      (uploadFileToOpenai rid req tr).result =
        .error (tagged rid ("Base64 decode error: " ++ e))) := by
  constructor
  · cases hpx : proxyStepUpload rid req.proxy_config tr with
    | error e1 => simp [uploadFileToOpenai, hpx]
    | ok u =>
      cases hb : tr.clientBuild with
      | error e1 => simp [uploadFileToOpenai, hpx, hb]
      | ok v => simp [uploadFileToOpenai, hpx, hb, hdec]
  · intro hpx hb
    simp [uploadFileToOpenai, hpx, hb, hdec]

/-- C8 witness: the payload `####` is rejected before any network activity
with a decode error. -/
theorem upload_invalid_base64_witness :
    (uploadFileToOpenai "w8" upReqBad upTrOk).sent = none ∧
    (uploadFileToOpenai "w8" upReqBad upTrOk).result =
      .error "[Request w8] Base64 decode error: Invalid byte" := by
  have h := upload_invalid_base64 "w8" upReqBad upTrOk "Invalid byte" rfl
  exact ⟨h.1, h.2 rfl rfl⟩

/-! ## C9 and C10 — the configuration loader -/

/-- Candidates that do not exist are skipped without affecting the result. -/
theorem loadLoop_skip (all : List (String × String)) (fs : ConfigFS)
    (pre rest : List (String × String))
    (hpre : ∀ x ∈ pre, fs.pathExists x.1 = false) :
    loadLoop all fs (pre ++ rest) = loadLoop all fs rest := by
  induction pre with
  | nil => rfl
  | cons x xs ih =>
    obtain ⟨p, l⟩ := x
    have hx : fs.pathExists p = false := hpre (p, l) (by simp)
    have step : loadLoop all fs ((p, l) :: (xs ++ rest)) = loadLoop all fs (xs ++ rest) := by
      conv_lhs => rw [loadLoop]
      rw [if_neg (by rw [hx]; exact Bool.false_ne_true)]
    rw [List.cons_append, step]
    exact ih fun y hy => hpre y (List.mem_cons_of_mem _ hy)

/-- C9, counterexample: candidate `A` exists but holds malformed JSON and
candidate `B` exists and parses, yet the loader returns the parse ERROR for
`A` — it does not go on to return the configuration held by `B`. -/
theorem load_aborts_counterexample :
    loadSecureConfig [("A", "l1"), ("B", "l2")] fsFirstBad =
      .error ("config.pkg の解析に失敗しました (A): expected value at line 1 column 1") ∧
    fsFirstBad.pathExists "B" = true ∧
    fsFirstBad.parseConfig (stripBom ((fsFirstBad.readFile "B").toOption.getD [])) =
      .ok ⟨some 1, [], none, none, none⟩ :=
  ⟨rfl, rfl, rfl⟩

/-- C9 (amended): the loader returns the configuration of the FIRST
candidate that exists; non-existing candidates before it are skipped, but if
that first existing candidate fails to read or to parse, the whole call
fails with that error — a later existing, parseable candidate is never
reached. -/
theorem load_first_existing (pre rest : List (String × String)) (p l : String)
    (fs : ConfigFS)
    (hpre : ∀ x ∈ pre, fs.pathExists x.1 = false)
    (hp : fs.pathExists p = true) :
    loadSecureConfig (pre ++ (p, l) :: rest) fs =
      match fs.readFile p with
      | .error e => .error ("config.pkg の読み込みに失敗しました (" ++ p ++ "): " ++ e)
      | .ok data =>
        match fs.parseConfig (stripBom data) with
        | .error e => .error ("config.pkg の解析に失敗しました (" ++ p ++ "): " ++ e)
        | .ok config =>
          .ok ⟨some config, some p, searchedOf (pre ++ (p, l) :: rest)⟩ := by
  unfold loadSecureConfig
  rw [loadLoop_skip _ fs pre _ hpre]
  unfold loadLoop
  rw [if_pos hp]

/-- C9 witness: a missing candidate is skipped; the next, existing candidate
fails to parse and that failure is the result of the loader. -/
theorem load_first_existing_witness :
    loadSecureConfig [("X", "lx"), ("A", "la")] fsSkipThenBad =
      .error ("config.pkg の解析に失敗しました (A): bad") := by
  have h := load_first_existing [("X", "lx")] [] "A" "la" fsSkipThenBad
    (by decide) (by decide)
  exact h

/-- C10: when no candidate exists the loader succeeds with no configuration,
no path, and the full searched-path list (every candidate with its label, in
priority order). -/
theorem load_no_candidate (cands : List (String × String)) (fs : ConfigFS)
    (h : ∀ pl ∈ cands, fs.pathExists pl.1 = false) :
    loadSecureConfig cands fs = .ok ⟨none, none, searchedOf cands⟩ := by
  have h2 := loadLoop_skip cands fs cands [] h
  rw [List.append_nil] at h2
  unfold loadSecureConfig
  rw [h2]
  rfl

/-- C10 witness: two missing candidates produce a successful empty result
listing both searched paths. -/
theorem load_no_candidate_witness :
    loadSecureConfig
      [("C:/cfg/config.pkg", "アプリの設定フォルダ（自動コピー先）"),
       ("D:/app/config.pkg", "アプリを起動したフォルダ")] fsEmpty =
      .ok ⟨none, none,
        [⟨"C:/cfg/config.pkg", "アプリの設定フォルダ（自動コピー先）"⟩,
         ⟨"D:/app/config.pkg", "アプリを起動したフォルダ"⟩]⟩ :=
  load_no_candidate _ fsEmpty (by decide)

end ChatUI
